import Mathlib

/-!
Shallow embedding of the Video Integrity & Biomechanical Analysis Pipeline
of the `utkrsh` repository (src/services/cheat_detection.py and
src/services/ai_analysis.py), together with theorems settling the frozen
claims about it.

Modelling conventions:
* Python floats are modelled as exact rationals (`ℚ`); every float constant
  of the source (0.05, 0.3, 0.95, …) is an exact decimal, and every sum the
  pipeline forms stays on one-decimal grid points, so rational arithmetic
  agrees with IEEE double on all comparisons the code performs.
* A grayscale frame is its pixel multiset, `List ℕ` (intensities 0‥255):
  exactly the data `cv2.calcHist` consumes.
* The two black-box numeric primitives (MediaPipe pose estimation and
  Farneback optical flow) are parameters of the embedding: pose results
  enter `analyze_posture` as `Option PoseLandmarks` per frame, and
  `detect_unnatural_movement` takes the mean-flow-magnitude function as an
  argument, as the spec directs ("invoked as black-box numeric primitives").
* `cv2.compareHist(…, HISTCMP_CORREL)` involves a square root; since the
  code only ever compares the similarity against a threshold, the embedding
  `calculate_frame_similarity_gt` encodes that comparison exactly over `ℚ`
  (squaring both sides; OpenCV's `DBL_EPSILON` guard on the denominator is
  modelled as an exact zero test, and OpenCV returns 1 in that branch).
* Anomaly strings carry an index payload; they are modelled by the
  inductive `Anomaly`, keeping identity and order, dropping only the
  formatted similarity percentage no claim inspects.
-/

namespace Utkrsh

/-! ## Frame sampling (`extract_frames`, both variants) -/

/-- A grayscale frame: the list of its pixel intensities (each `< 256`). -/
abbrev Frame := List ℕ

/-- Model of `cv2.VideoCapture(path)`: `opened` is what `cap.isOpened()`
returns (false when the source cannot be opened), `frames` the successive
successful `cap.read()` results before `ret` turns false. -/
structure VideoCapture (α : Type) where
  opened : Bool
  frames : List α

/-- The error the spec's §4.1/§7 taxonomy says frame sampling fails with.
No such error class exists anywhere in the repository; the type is needed
only to state the spec's claim about it. -/
inductive DecodeError where
  | decodeError
  deriving DecidableEq

/-- `extract_frames(video_path, frame_interval)` (src/services/ai_analysis.py
lines 105-124 with `transform` = resize-to-640×480, interval 10, and
src/services/cheat_detection.py lines 44-64 with `transform` =
resize-to-224×224-then-grayscale, interval 5): while the capture is open,
read frames, keep every `frame_interval`-th one transformed. An unopened
capture never enters the loop. -/
def extract_frames {α β : Type} (transform : α → β) (frame_interval : ℕ)
    (cap : VideoCapture α) : List β :=
  if cap.opened then
    (cap.frames.enum.filter (fun p => p.1 % frame_interval = 0)).map
      (fun p => transform p.2)
  else []

/-- `extract_frames` with its ability to raise made explicit in the type:
the Python function body contains no `raise` and calls no API that throws
on an unreadable source (`cv2.VideoCapture` reports failure only through
`isOpened()`), so the result is always `Except.ok`. -/
def extract_framesE {α β : Type} (transform : α → β) (frame_interval : ℕ)
    (cap : VideoCapture α) : Except DecodeError (List β) :=
  Except.ok (extract_frames transform frame_interval cap)

/-! ## Duplication detector (`detect_frame_duplication`,
`calculate_frame_similarity`) -/

/-- `cv2.calcHist([frame],[0],None,[256],[0,256])`: the 256-bin intensity
histogram of a grayscale frame. -/
def calcHist (f : Frame) : List ℚ :=
  (List.range 256).map (fun b => (f.count b : ℚ))

/-- `cv2.normalize(hist, hist, 0, 1, cv2.NORM_MINMAX)`: affine map sending
the minimum to 0 and the maximum to 1; a constant array maps to all zeros
(OpenCV's scale degenerates to 0 there). -/
def normalizeMinMax : List ℚ → List ℚ
  | [] => []
  | a :: t =>
    let l := a :: t
    let mn := l.foldl min a
    let mx := l.foldl max a
    if mx = mn then l.map (fun _ => (0 : ℚ))
    else l.map (fun x => (x - mn) / (mx - mn))

/-- The comparison `calculate_frame_similarity(f1, f2) > t`
(src/services/cheat_detection.py lines 97-108): normalized histograms,
`HISTCMP_CORREL` correlation `num / √d2` (OpenCV returns 1 when `|d2|` is
below `DBL_EPSILON`, modelled as `d2 = 0`), clamped by `max(·, 0)`.
For `0 < t` the clamped comparison is `corr > t`, and with `0 < d2` that is
`0 < num ∧ t²·d2 < num²`, which is how the square root is avoided. -/
def calculate_frame_similarity_gt (f1 f2 : Frame) (t : ℚ) : Bool :=
  let h1 := normalizeMinMax (calcHist f1)
  let h2 := normalizeMinMax (calcHist f2)
  let n : ℚ := h1.length
  let s1 : ℚ := h1.sum
  let s2 : ℚ := h2.sum
  let s11 : ℚ := (h1.map (fun x => x ^ 2)).sum
  let s22 : ℚ := (h2.map (fun x => x ^ 2)).sum
  let s12 : ℚ := ((h1.zip h2).map (fun p => p.1 * p.2)).sum
  let num : ℚ := s12 - s1 * s2 / n
  let d2 : ℚ := (s11 - s1 ^ 2 / n) * (s22 - s2 ^ 2 / n)
  if d2 = 0 then decide (t < 1)
  else decide (0 < num) && decide ((t ^ 2 * d2 : ℚ) < num ^ 2)

/-- The anomaly strings the detectors emit, keeping the index payload and
dropping only the formatted similarity percentage. -/
inductive Anomaly where
  /-- `"Analysis failed"` -/
  | analysisFailed
  /-- `f"Frames {i} and {j} are …% similar"` -/
  | dupFrames (i j : ℕ)
  /-- `f"Unnatural movement detected between frames {i} and {j}"` -/
  | unnaturalMove (i j : ℕ)
  deriving DecidableEq

/-- Result shape of `detect_frame_duplication`. -/
structure SimilarityReport where
  is_duplicated : Bool
  confidence : ℚ
  duplicate_count : ℕ
  anomalies : List Anomaly
  deriving DecidableEq

/-- The loop `for i in range(1, len(frames))` of `detect_frame_duplication`:
compare each consecutive pair, count hits and record their anomalies in
frame order. The accumulator index is Python's `i - 1` for the pair at the
head of the list. -/
def dupScan (t : ℚ) : ℕ → List Frame → ℕ × List Anomaly
  | _, [] => (0, [])
  | _, [_] => (0, [])
  | i, a :: b :: rest =>
    let r := dupScan t (i + 1) (b :: rest)
    if calculate_frame_similarity_gt a b t then
      (r.1 + 1, Anomaly.dupFrames i (i + 1) :: r.2)
    else r

/-- `detect_frame_duplication(frames, threshold)`
(src/services/cheat_detection.py lines 66-95). -/
def detect_frame_duplication (t : ℚ) (frames : List Frame) : SimilarityReport :=
  if frames.length < 2 then
    { is_duplicated := false, confidence := 0, duplicate_count := 0, anomalies := [] }
  else
    let r := dupScan t 0 frames
    { is_duplicated := decide ((frames.length : ℚ) * (1/10) < (r.1 : ℚ))
      confidence := min ((r.1 : ℚ) / (frames.length : ℚ)) 1
      duplicate_count := r.1
      anomalies := r.2 }

/-! ## Motion anomaly detector (`detect_unnatural_movement`) -/

/-- Result shape of `detect_unnatural_movement`. -/
structure MotionReport where
  is_unnatural : Bool
  confidence : ℚ
  anomalies : List Anomaly
  deriving DecidableEq

/-- The first loop of `detect_unnatural_movement`: the mean optical-flow
magnitude (`np.mean(calculate_optical_flow(..))`, supplied as the black-box
`flowMean`) of each consecutive frame pair. -/
def movement_changes (flowMean : Frame → Frame → ℚ) : List Frame → List ℚ
  | a :: b :: rest => flowMean a b :: movement_changes flowMean (b :: rest)
  | _ => []

/-- The outlier pass of `detect_unnatural_movement`: when there is more
than one magnitude, flag index `i` when `abs(m - mean) > 2 * std`. With
`v = std²` (population variance, `np.std` with `ddof = 0`) that comparison
is encoded squared, `(m - mean)² > 4·v`, to stay in `ℚ`. -/
def motion_outliers (mc : List ℚ) : List Anomaly :=
  if 1 < mc.length then
    let μ := mc.sum / (mc.length : ℚ)
    let v := ((mc.map (fun m => (m - μ) ^ 2)).sum) / (mc.length : ℚ)
    mc.enum.filterMap (fun p =>
      if 4 * v < (p.2 - μ) ^ 2 then some (Anomaly.unnaturalMove p.1 (p.1 + 1))
      else none)
  else []

/-- `detect_unnatural_movement(frames)`
(src/services/cheat_detection.py lines 110-135). -/
def detect_unnatural_movement (flowMean : Frame → Frame → ℚ)
    (frames : List Frame) : MotionReport :=
  let mc := movement_changes flowMean frames
  let anoms := motion_outliers mc
  { is_unnatural := decide (0 < anoms.length)
    confidence := if mc.isEmpty then 0
      else min ((anoms.length : ℚ) / (mc.length : ℚ)) 1
    anomalies := anoms }

/-! ## Integrity verdict composer (`detect_cheating`) -/

/-- Result shape of `detect_cheating`. -/
structure IntegrityVerdict where
  is_cheating_detected : Bool
  confidence : ℚ
  detected_anomalies : List Anomaly
  frames_analyzed : ℕ
  duplicate_frames : ℕ
  deriving DecidableEq

/-- The result-combination step of `detect_cheating`
(src/services/cheat_detection.py lines 24-32). -/
def composeVerdict (dup : SimilarityReport) (motion : MotionReport)
    (nFrames : ℕ) : IntegrityVerdict :=
  { is_cheating_detected := dup.is_duplicated || motion.is_unnatural
    confidence := max dup.confidence motion.confidence
    detected_anomalies := dup.anomalies ++ motion.anomalies
    frames_analyzed := nFrames
    duplicate_frames := dup.duplicate_count }

/-- The `except Exception` branch of `detect_cheating`
(src/services/cheat_detection.py lines 34-42). -/
def failVerdict : IntegrityVerdict :=
  { is_cheating_detected := false
    confidence := 0
    detected_anomalies := [Anomaly.analysisFailed]
    frames_analyzed := 0
    duplicate_frames := 0 }

/-- `detect_cheating(video_url)` (src/services/cheat_detection.py lines
9-42). The fallible prefix of the `try` block — `download_video` plus
`extract_frames` — is the `pipeline` argument (its `Except.error` case is
any Python exception escaping those calls); on success the three analyses
run (the `analyze_movement_speed` placeholder contributes nothing to the
returned dict) and the results are combined, on failure the handler
returns the fixed fail-open verdict. -/
def detect_cheating (flowMean : Frame → Frame → ℚ)
    (pipeline : Except String (List Frame)) : IntegrityVerdict :=
  match pipeline with
  | Except.ok frames =>
      composeVerdict (detect_frame_duplication (19/20) frames)
        (detect_unnatural_movement flowMean frames) frames.length
  | Except.error _ => failVerdict

/-! ## Posture analyzer (`analyze_posture`, `calculate_posture_metrics`) -/

/-- One MediaPipe pose landmark: normalized image coordinates. -/
structure Landmark where
  x : ℚ
  y : ℚ
  z : ℚ
  deriving DecidableEq

/-- A non-empty `results.pose_landmarks`: MediaPipe's 33-point list,
abstracted to the six joints `calculate_posture_metrics` reads by index
plus the full list it turns into keypoints. -/
structure PoseLandmarks where
  leftShoulder : Landmark
  rightShoulder : Landmark
  leftHip : Landmark
  rightHip : Landmark
  leftKnee : Landmark
  rightKnee : Landmark
  allLandmarks : List Landmark
  deriving DecidableEq

/-- Per-frame result of `calculate_posture_metrics`. -/
structure PostureMetrics where
  score : ℚ
  issues : List String
  keypoints : List (ℚ × ℚ × ℚ)
  deriving DecidableEq

/-- `calculate_posture_metrics(landmarks)` (src/services/ai_analysis.py
lines 159-198): 85-point base, −10 / −10 / −8 for a shoulder / hip / knee
vertical delta above 0.05, floored at 0 by `max(score, 0)`. -/
def calculate_posture_metrics (lm : PoseLandmarks) : PostureMetrics :=
  let sBad : Bool := decide ((0.05 : ℚ) < |lm.leftShoulder.y - lm.rightShoulder.y|)
  let hBad : Bool := decide ((0.05 : ℚ) < |lm.leftHip.y - lm.rightHip.y|)
  let kBad : Bool := decide ((0.05 : ℚ) < |lm.leftKnee.y - lm.rightKnee.y|)
  let score : ℚ := 85 - (if sBad then 10 else 0) - (if hBad then 10 else 0)
    - (if kBad then 8 else 0)
  { score := max score 0
    issues := (if sBad then ["Shoulder imbalance detected"] else []) ++
      (if hBad then ["Hip imbalance detected"] else []) ++
      (if kBad then ["Knee imbalance detected"] else [])
    keypoints := lm.allLandmarks.map (fun l => (l.x, l.y, l.z)) }

/-- Result shape of `analyze_posture` (`recommended_corrections` is
initialized and never written). -/
structure PostureResults where
  posture_score : ℚ
  alignment_issues : List String
  recommended_corrections : List String
  keypoints : List (List (ℚ × ℚ × ℚ))
  deriving DecidableEq

/-- `analyze_posture(frames)` (src/services/ai_analysis.py lines 126-157).
The pose-estimation primitive is a black box, so the input is its per-frame
output: `none` when `results.pose_landmarks` was falsy (that frame is
skipped), `some lm` otherwise. For a non-empty frame list the accumulated
score is divided by `len(frames)` — the total frame count — and the issue
list is collapsed through `list(set(…))`, modelled as `List.dedup` (same
elements, no duplicates; Python's set iteration order is unspecified). -/
def analyze_posture (detections : List (Option PoseLandmarks)) : PostureResults :=
  let metrics := (detections.filterMap id).map calculate_posture_metrics
  let total : ℚ := (metrics.map (fun m => m.score)).sum
  let issues := (metrics.map (fun m => m.issues)).flatten
  let kps := metrics.map (fun m => m.keypoints)
  if 0 < detections.length then
    { posture_score := total / (detections.length : ℚ)
      alignment_issues := issues.dedup
      recommended_corrections := []
      keypoints := kps }
  else
    { posture_score := total
      alignment_issues := issues
      recommended_corrections := []
      keypoints := kps }

/-! ## Injury risk scorer (`predict_injury_risk`) -/

/-- The skill-assessment dicts of src/services/ai_analysis.py (only `score`
is read by `predict_injury_risk`). -/
structure SkillAssessment where
  score : ℚ
  confidence : ℚ
  feedback : String
  strengths : List String
  areas_for_improvement : List String
  deriving DecidableEq

/-- Result shape of `predict_injury_risk`. -/
structure InjuryRiskPrediction where
  risk_level : String
  risk_score : ℚ
  risk_factors : List String
  prevention_recommendations : List String
  deriving DecidableEq

/-- Python's `round(q, 2)`. Banker's rounding and `Mathlib.round` differ
only at exact half-cent ties, which no value of this pipeline reaches: all
its risk scores are exact multiples of 0.1. -/
def roundTo2 (q : ℚ) : ℚ := (round (q * 100) : ℤ) / 100

/-- The three generic prevention recommendations. -/
def generic_recommendations : List String :=
  ["Focus on proper form during exercises",
   "Incorporate balance training",
   "Consider professional coaching for technique improvement"]

/-- `predict_injury_risk(posture_analysis, skill_assessment)`
(src/services/ai_analysis.py lines 375-420). Note the targeted
recommendations test exact list membership of `"Shoulder imbalance"` /
`"Hip imbalance"` / `"Knee imbalance"` — not of the `"… detected"` strings
`calculate_posture_metrics` actually emits. -/
def predict_injury_risk (posture : PostureResults) (skill : SkillAssessment) :
    InjuryRiskPrediction :=
  let r0 : ℚ := 0.3
  let r1 : ℚ := if 2 < posture.alignment_issues.length then r0 + 0.3 else r0
  let r2 : ℚ := if posture.posture_score < 70 then r1 + 0.2 else r1
  let r3 : ℚ := if skill.score < 70 then r2 + 0.1 else r2
  let level : String := if r3 < 0.4 then "low"
    else if r3 < 0.7 then "medium" else "high"
  let recs0 := generic_recommendations
  let recs1 := if "Shoulder imbalance" ∈ posture.alignment_issues then
      recs0 ++ ["Incorporate shoulder stability exercises"] else recs0
  let recs2 := if "Hip imbalance" ∈ posture.alignment_issues then
      recs1 ++ ["Add hip mobility and strengthening exercises"] else recs1
  let recs3 := if "Knee imbalance" ∈ posture.alignment_issues then
      recs2 ++ ["Focus on knee stabilization exercises"] else recs2
  { risk_level := level
    risk_score := roundTo2 r3
    risk_factors := posture.alignment_issues
    prevention_recommendations := recs3 }

/-! ## Concrete probe inputs used to evaluate the pipeline -/

/-- A landmark at the origin. -/
def probeLandmark : Landmark := { x := 0, y := 0, z := 0 }

/-- A perfectly symmetric pose: every joint delta is 0, so
`calculate_posture_metrics` reports score 85 and no issues. -/
def probeLandmarks : PoseLandmarks :=
  { leftShoulder := probeLandmark, rightShoulder := probeLandmark
    leftHip := probeLandmark, rightHip := probeLandmark
    leftKnee := probeLandmark, rightKnee := probeLandmark
    allLandmarks := [] }

/-- A pose whose shoulder vertical delta is 0.1 > 0.05, so
`calculate_posture_metrics` reports the shoulder-imbalance issue. -/
def shoulderOffLandmarks : PoseLandmarks :=
  { probeLandmarks with leftShoulder := { x := 0, y := 0.1, z := 0 } }

/-- The fallback dict of `assess_skills` (src/services/ai_analysis.py
lines 200-238), the skill assessment used for general sports/skills. -/
def default_assessment : SkillAssessment :=
  { score := 78
    confidence := 0.85
    feedback := "Good form overall. Focus on follow-through and balance."
    strengths := ["Good acceleration", "Proper grip"]
    areas_for_improvement := ["Follow-through", "Balance maintenance"] }

/-- A posture analysis carrying the three issue tags with score 60
(spec §8's first injury-risk example). -/
def threeIssuePosture : PostureResults :=
  { posture_score := 60
    alignment_issues := ["Shoulder imbalance detected", "Hip imbalance detected",
      "Knee imbalance detected"]
    recommended_corrections := []
    keypoints := [] }

/-- A clean posture analysis with score 90 (spec §8's second example). -/
def goodPosture : PostureResults :=
  { posture_score := 90
    alignment_issues := []
    recommended_corrections := []
    keypoints := [] }

/-- A skill assessment scoring 65. -/
def skill65 : SkillAssessment := { default_assessment with score := 65 }

/-- A skill assessment scoring 90. -/
def skill90 : SkillAssessment := { default_assessment with score := 90 }

/-- A video source that cannot be opened (`cap.isOpened()` is false) even
though bytes are behind it. -/
def badCapture : VideoCapture Frame := { opened := false, frames := [[1]] }

/-! ## Helper lemmas -/

theorem zip_self_map (l : List ℚ) :
    (l.zip l).map (fun p => p.1 * p.2) = l.map (fun x => x ^ 2) := by
  induction l with
  | nil => rfl
  | cons a l ih => simp [ih, sq]

theorem two_mul_sum_le (a : ℚ) (l : List ℚ) :
    2 * a * l.sum ≤ (l.length : ℚ) * a ^ 2 + (l.map (fun x => x ^ 2)).sum := by
  induction l with
  | nil => simp
  | cons x l ih =>
    simp only [List.sum_cons, List.length_cons, List.map_cons]
    push_cast
    nlinarith [sq_nonneg (a - x), ih]

/-- `Σ l² ≥ 0`. -/
theorem sum_map_sq_nonneg (l : List ℚ) :
    0 ≤ (l.map (fun x => x ^ 2)).sum := by
  induction l with
  | nil => simp
  | cons x l ih => simp only [List.map_cons, List.sum_cons]; nlinarith [sq_nonneg x]

/-- Cauchy–Schwarz for list sums: `(Σ l)² ≤ |l| · Σ l²`. -/
theorem list_sq_sum_le (l : List ℚ) :
    l.sum ^ 2 ≤ (l.length : ℚ) * (l.map (fun x => x ^ 2)).sum := by
  induction l with
  | nil => simp
  | cons x l ih =>
    simp only [List.sum_cons, List.length_cons, List.map_cons]
    push_cast
    nlinarith [two_mul_sum_le x l, ih, Nat.cast_nonneg (α := ℚ) l.length,
      sq_nonneg x, sum_map_sq_nonneg l]

/-- A frame always exceeds any threshold in `(0, 1)` against itself: the
two histograms coincide, so either the correlation denominator vanishes
(OpenCV's answer is 1) or the correlation is exactly 1. -/
theorem calculate_frame_similarity_gt_self (f : Frame) (t : ℚ) (ht0 : 0 < t)
    (ht1 : t < 1) : calculate_frame_similarity_gt f f t = true := by
  unfold calculate_frame_similarity_gt
  simp only [zip_self_map]
  generalize normalizeMinMax (calcHist f) = h
  rw [show h.sum * h.sum = h.sum ^ 2 from (pow_two h.sum).symm]
  set e : ℚ := (h.map (fun x => x ^ 2)).sum - h.sum ^ 2 / (h.length : ℚ)
    with he_def
  by_cases he : e = 0
  · simp [he, ht1]
  · have hne : e * e ≠ 0 := mul_ne_zero he he
    rw [if_neg hne]
    have hnil : h ≠ [] := by
      intro hnil
      apply he
      rw [he_def, hnil]
      simp
    have hlen : (0 : ℚ) < (h.length : ℚ) := by
      exact_mod_cast List.length_pos.mpr hnil
    have hnn : 0 ≤ e := by
      rw [he_def, sub_nonneg, div_le_iff₀ hlen]
      nlinarith [list_sq_sum_le h]
    have hpos : 0 < e := lt_of_le_of_ne hnn (Ne.symm he)
    have ht2 : t ^ 2 < 1 := by nlinarith
    have hlt : t ^ 2 * (e * e) < e ^ 2 := by
      rw [pow_two e]
      calc t ^ 2 * (e * e) < 1 * (e * e) :=
            mul_lt_mul_of_pos_right ht2 (mul_pos hpos hpos)
        _ = e * e := one_mul _
    simp [hpos, hlt]

/-- On a run of identical frames every consecutive pair is flagged, so the
scan counts one hit per pair. -/
theorem dupScan_fst_replicate (t : ℚ) (f : Frame)
    (hs : calculate_frame_similarity_gt f f t = true) :
    ∀ (n i : ℕ), (dupScan t i (List.replicate n f)).1 = n - 1 := by
  intro n
  induction n with
  | zero => intro i; rfl
  | succ m ih =>
    intro i
    cases m with
    | zero => rfl
    | succ k =>
      have hrep : List.replicate (k + 2) f = f :: f :: List.replicate k f := rfl
      rw [hrep]
      have htail := ih (i + 1)
      rw [show List.replicate (k + 1) f = f :: List.replicate k f from rfl] at htail
      simp only [dupScan, hs, if_true]
      simpa using htail

/-- The scan never counts more hits than there are consecutive pairs. -/
theorem dupScan_fst_le (t : ℚ) :
    ∀ (l : List Frame) (i : ℕ), (dupScan t i l).1 ≤ l.length - 1 := by
  intro l
  induction l with
  | nil => intro i; simp [dupScan]
  | cons a tl ih =>
    intro i
    cases tl with
    | nil => simp [dupScan]
    | cons b rest =>
      have h := ih (i + 1)
      simp only [List.length_cons] at h ⊢
      simp only [dupScan]
      split
      · simpa using Nat.succ_le_succ (by simpa using h)
      · exact le_trans h (by omega)

/-- One motion magnitude per consecutive pair. -/
theorem movement_changes_length (flowMean : Frame → Frame → ℚ) :
    ∀ (l : List Frame), (movement_changes flowMean l).length = l.length - 1 := by
  intro l
  induction l with
  | nil => rfl
  | cons a tl ih =>
    cases tl with
    | nil => rfl
    | cons b rest =>
      simp only [movement_changes, List.length_cons] at ih ⊢
      omega

/-- A constant list sums to length times the constant. -/
theorem list_sum_const (l : List ℚ) (c : ℚ) (hc : ∀ m ∈ l, m = c) :
    l.sum = (l.length : ℚ) * c := by
  induction l with
  | nil => simp
  | cons x t ih =>
    simp only [List.sum_cons, List.length_cons]
    rw [hc x (by simp), ih (fun m hm => hc m (by simp [hm]))]
    push_cast
    ring

/-- Zero-variance magnitudes produce no outliers: when every magnitude
equals `c` the mean is `c`, every deviation is 0, and `0 > 2·σ = 0` fails. -/
theorem motion_outliers_const (mc : List ℚ) (c : ℚ) (hc : ∀ m ∈ mc, m = c) :
    motion_outliers mc = [] := by
  unfold motion_outliers
  by_cases hl : 1 < mc.length
  · rw [if_pos hl]
    have hlen : (0 : ℚ) < (mc.length : ℚ) := by exact_mod_cast by omega
    have hμ : mc.sum / (mc.length : ℚ) = c := by
      rw [list_sum_const mc c hc, mul_comm, mul_div_assoc,
        div_self (ne_of_gt hlen), mul_one]
    have hv : (mc.map (fun m => (m - mc.sum / (mc.length : ℚ)) ^ 2)).sum = 0 := by
      apply List.sum_eq_zero
      intro x hx
      obtain ⟨m, hm, rfl⟩ := List.mem_map.mp hx
      rw [hμ, hc m hm]
      ring
    apply List.filterMap_eq_nil_iff.mpr
    intro p hp
    have hp2 : p.2 ∈ mc := by
      have := List.mem_map_of_mem Prod.snd hp
      rwa [List.enum_map_snd] at this
    rw [if_neg]
    rw [hv, hμ, hc p.2 hp2]
    simp
  · rw [if_neg hl]

/-! ## Claims -/

/-- C1: if any exception is raised during the integrity-check pipeline,
`detect_cheating` does not propagate the fault: it returns exactly the
well-formed verdict `{is_cheating_detected: false, confidence: 0.0,
detected_anomalies: ["Analysis failed"], frames_analyzed: 0,
duplicate_frames: 0}`. -/
theorem detect_cheating_fail_open (flowMean : Frame → Frame → ℚ) (e : String) :
    detect_cheating flowMean (Except.error e) =
      { is_cheating_detected := false
        confidence := 0
        detected_anomalies := [Anomaly.analysisFailed]
        frames_analyzed := 0
        duplicate_frames := 0 } := rfl

/-- C8: for every pair of `SimilarityReport` and `MotionReport` inputs, the
composed `IntegrityVerdict` has `is_cheating_detected` equal to the logical
OR of `is_duplicated` and `is_unnatural`, `confidence` equal to the maximum
of the two component confidences, and `detected_anomalies` equal to the
duplication anomalies followed by the motion anomalies, with no
deduplication. -/
theorem composeVerdict_fields (dup : SimilarityReport) (motion : MotionReport)
    (nFrames : ℕ) :
    (composeVerdict dup motion nFrames).is_cheating_detected =
        (dup.is_duplicated || motion.is_unnatural) ∧
      (composeVerdict dup motion nFrames).confidence =
        max dup.confidence motion.confidence ∧
      (composeVerdict dup motion nFrames).detected_anomalies =
        dup.anomalies ++ motion.anomalies :=
  ⟨rfl, rfl, rfl⟩

/-- C9: for every frame sequence of any length `n ≥ 0`, the
`alignment_issues` list returned by `analyze_posture` contains no
duplicate tags. -/
theorem analyze_posture_issues_nodup (detections : List (Option PoseLandmarks)) :
    (analyze_posture detections).alignment_issues.Nodup := by
  by_cases h : 0 < detections.length
  · simp only [analyze_posture, if_pos h]
    exact List.nodup_dedup _
  · have hnil : detections = [] := List.length_eq_zero.mp (by omega)
    subst hnil
    simp [analyze_posture]

/-- C4: for every `PostureResults` input and skill score, the injury risk
score equals 0.3, plus 0.3 if the alignment-issue count exceeds 2, plus
0.2 if `posture_score < 70`, plus 0.1 if the skill score `< 70`; and
`risk_level` is `"low"` when the resulting score is `< 0.4`, `"medium"`
when it is `< 0.7`, and `"high"` otherwise; in particular 3 issues with
posture 60 and skill 65 yield score 0.9 and level `"high"`, and no issues
with posture 90 and skill 90 yield score 0.3 and level `"low"`. -/
theorem predict_injury_risk_spec (p : PostureResults) (s : SkillAssessment) :
    ((predict_injury_risk p s).risk_score =
        0.3 + (if 2 < p.alignment_issues.length then (0.3 : ℚ) else 0) +
          (if p.posture_score < 70 then (0.2 : ℚ) else 0) +
          (if s.score < 70 then (0.1 : ℚ) else 0) ∧
      (predict_injury_risk p s).risk_level =
        (if (predict_injury_risk p s).risk_score < 0.4 then "low"
         else if (predict_injury_risk p s).risk_score < 0.7 then "medium"
         else "high")) ∧
      (predict_injury_risk threeIssuePosture skill65).risk_score = 0.9 ∧
      (predict_injury_risk threeIssuePosture skill65).risk_level = "high" ∧
      (predict_injury_risk goodPosture skill90).risk_score = 0.3 ∧
      (predict_injury_risk goodPosture skill90).risk_level = "low" := by
  refine ⟨?_, ?_, ?_, ?_, ?_⟩
  · by_cases h1 : 2 < p.alignment_issues.length <;>
      by_cases h2 : p.posture_score < 70 <;>
      by_cases h3 : s.score < 70 <;>
      · simp only [predict_injury_risk, roundTo2, h1, h2, h3, if_true, if_false,
          ite_true, ite_false]
        norm_num [round_eq]
  · norm_num [predict_injury_risk, roundTo2, threeIssuePosture, skill65,
      default_assessment, round_eq]
  · norm_num [predict_injury_risk, roundTo2, threeIssuePosture, skill65,
      default_assessment, round_eq]
  · norm_num [predict_injury_risk, roundTo2, goodPosture, skill90,
      default_assessment, round_eq]
  · norm_num [predict_injury_risk, roundTo2, goodPosture, skill90,
      default_assessment, round_eq]

/-- C5 (code-bug evidence): the posture analysis' shoulder-imbalance tag is
`"Shoulder imbalance detected"`, but `predict_injury_risk` tests exact list
membership of `"Shoulder imbalance"`, which never matches it, so the
targeted recommendation is not appended: the recommendation list stays at
exactly the three generic entries, against the claim (and the code's own
comment "Add specific recommendations based on posture issues"). -/
theorem predict_injury_risk_dead_recommendations :
    (analyze_posture [some shoulderOffLandmarks]).alignment_issues =
        ["Shoulder imbalance detected"] ∧
      (predict_injury_risk (analyze_posture [some shoulderOffLandmarks])
          default_assessment).prevention_recommendations =
        generic_recommendations ∧
      "Incorporate shoulder stability exercises" ∉
        (predict_injury_risk (analyze_posture [some shoulderOffLandmarks])
          default_assessment).prevention_recommendations := by
  have habs : |(1 : ℚ)/10| = 1/10 := abs_of_nonneg (by norm_num)
  have hm : calculate_posture_metrics shoulderOffLandmarks =
      { score := 75, issues := ["Shoulder imbalance detected"], keypoints := [] } := by
    norm_num [calculate_posture_metrics, shoulderOffLandmarks, probeLandmarks,
      probeLandmark, habs, sup_eq_max, max_def]
  have hp : (analyze_posture [some shoulderOffLandmarks]).alignment_issues =
      ["Shoulder imbalance detected"] := by
    simp [analyze_posture, hm]
  have hs : ("Shoulder imbalance" : String) ≠ "Shoulder imbalance detected" := by
    decide
  have hh : ("Hip imbalance" : String) ≠ "Shoulder imbalance detected" := by
    decide
  have hk : ("Knee imbalance" : String) ≠ "Shoulder imbalance detected" := by
    decide
  refine ⟨hp, ?_, ?_⟩
  · simp [predict_injury_risk, hp, hs, hh, hk]
  · simp [predict_injury_risk, hp, hs, hh, hk, generic_recommendations]

/-- C2 counterexample: on one frame with a clean pose (per-frame score 85)
followed by one frame without landmarks, the claimed value — the arithmetic
mean of per-frame scores over only the frames with landmarks — is 85,
but `analyze_posture` divides the score sum by the total frame count and
returns 42.5. -/
theorem analyze_posture_mean_counterexample :
    ((([some probeLandmarks, none] : List (Option PoseLandmarks)).filterMap id).map
          (fun lm => (calculate_posture_metrics lm).score)).sum /
        ((([some probeLandmarks, none] : List (Option PoseLandmarks)).filterMap
          id).length : ℚ) = 85 ∧
      (analyze_posture [some probeLandmarks, none]).posture_score = 85 / 2 ∧
      (85 / 2 : ℚ) ≠ 85 := by
  have hm : calculate_posture_metrics probeLandmarks =
      { score := 85, issues := [], keypoints := [] } := by
    norm_num [calculate_posture_metrics, probeLandmarks, probeLandmark]
  have hfm : ([some probeLandmarks, none] : List (Option PoseLandmarks)).filterMap
      id = [probeLandmarks] := rfl
  refine ⟨?_, ?_, by norm_num⟩
  · rw [hfm]
    simp [hm]
  · simp only [analyze_posture, hfm]
    norm_num [hm]

/-- C2 amended: the aggregate `posture_score` equals the sum of the
per-frame scores over frames with landmarks divided by the TOTAL number of
frames when there is at least one frame; if no frame had landmarks, the
score is exactly 0 and the issue set is empty. -/
theorem analyze_posture_score_spec (d : List (Option PoseLandmarks)) :
    (0 < d.length →
      (analyze_posture d).posture_score =
        ((d.filterMap id).map (fun lm => (calculate_posture_metrics lm).score)).sum /
          (d.length : ℚ)) ∧
    (d.filterMap id = [] →
      (analyze_posture d).posture_score = 0 ∧
      (analyze_posture d).alignment_issues = []) := by
  constructor
  · intro h
    simp only [analyze_posture, if_pos h, List.map_map]
    rfl
  · intro h
    by_cases hl : 0 < d.length
    · simp [analyze_posture, if_pos hl, h]
    · simp [analyze_posture, if_neg hl, h]

/-- C2 witness: the amended claim evaluated at the counterexample input and
at a single frame without landmarks. -/
theorem analyze_posture_score_spec_witness :
    (analyze_posture [some probeLandmarks, none]).posture_score = 85 / 2 ∧
    (analyze_posture [(none : Option PoseLandmarks)]).posture_score = 0 ∧
    (analyze_posture [(none : Option PoseLandmarks)]).alignment_issues = [] := by
  have hm : calculate_posture_metrics probeLandmarks =
      { score := 85, issues := [], keypoints := [] } := by
    norm_num [calculate_posture_metrics, probeLandmarks, probeLandmark]
  have hfm : ([some probeLandmarks, none] : List (Option PoseLandmarks)).filterMap
      id = [probeLandmarks] := rfl
  refine ⟨?_, ?_, ?_⟩
  · rw [(analyze_posture_score_spec [some probeLandmarks, none]).1 (by simp), hfm]
    simp [hm]
  · exact ((analyze_posture_score_spec [none]).2 (by simp)).1
  · exact ((analyze_posture_score_spec [none]).2 (by simp)).2

/-- C3 counterexample: on a source that cannot be opened, `extract_frames`
returns the empty list normally (`Except.ok []`), not a `DecodeError`
failure as claimed — no `DecodeError` exists anywhere in the repository. -/
theorem extract_frames_no_decode_error :
    extract_framesE (fun f : Frame => f) 5 badCapture = Except.ok [] ∧
      (Except.ok [] : Except DecodeError (List Frame)) ≠
        Except.error DecodeError.decodeError := by
  exact ⟨rfl, by simp⟩

/-- C3 amended: the frame-sampling operation never fails: it returns an
empty frame sequence both when the source cannot be opened and when the
source opens but contains zero frames; no error ever propagates to the
caller. -/
theorem extract_frames_total_spec {α β : Type} (transform : α → β)
    (frame_interval : ℕ) (cap : VideoCapture α) :
    extract_framesE transform frame_interval cap =
        Except.ok (extract_frames transform frame_interval cap) ∧
      (cap.opened = false → extract_frames transform frame_interval cap = []) ∧
      (cap.frames = [] → extract_frames transform frame_interval cap = []) := by
  refine ⟨rfl, ?_, ?_⟩
  · intro h
    simp [extract_frames, h]
  · intro h
    simp [extract_frames, h]

/-- C3 witness: the amended claim evaluated at an unopenable source and at
an opened source with zero frames. -/
theorem extract_frames_total_spec_witness :
    extract_frames (fun f : Frame => f) 5 badCapture = [] ∧
    extract_frames (fun f : Frame => f) 5
      ({ opened := true, frames := [] } : VideoCapture Frame) = [] :=
  ⟨(extract_frames_total_spec _ 5 badCapture).2.1 rfl,
   (extract_frames_total_spec _ 5 _).2.2 rfl⟩

/-- C10: for every frame sequence (and any threshold), the duplication
detector's `duplicate_count` is at most `len(frames) - 1` — one per
consecutive pair — and consequently its reported confidence
`min(duplicate_count / len(frames), 1.0)` is strictly less than 1. -/
theorem detect_frame_duplication_bounds (t : ℚ) (frames : List Frame) :
    (detect_frame_duplication t frames).duplicate_count ≤ frames.length - 1 ∧
      (detect_frame_duplication t frames).confidence < 1 := by
  by_cases h : frames.length < 2
  · simp only [detect_frame_duplication, if_pos h]
    exact ⟨Nat.zero_le _, by norm_num⟩
  · simp only [detect_frame_duplication, if_neg h]
    refine ⟨dupScan_fst_le t frames 0, ?_⟩
    have hle := dupScan_fst_le t frames 0
    have hlenQ : (0 : ℚ) < (frames.length : ℚ) := by
      exact_mod_cast by omega
    have hcast : ((dupScan t 0 frames).1 : ℚ) < (frames.length : ℚ) := by
      exact_mod_cast by omega
    have hdiv : ((dupScan t 0 frames).1 : ℚ) / (frames.length : ℚ) < 1 :=
      (div_lt_one hlenQ).mpr hcast
    exact lt_of_le_of_lt (min_le_left _ _) hdiv

/-- C6: for every sequence of pairwise-identical frames, the duplication
detector returns `duplicate_count = n - 1` and `is_duplicated = true`
whenever `n ≥ 2`; and for 0 or 1 frames it returns `duplicate_count = 0`,
`is_duplicated = false`, confidence 0 and an empty anomaly list. -/
theorem detect_frame_duplication_identical (l : List Frame) (f : Frame)
    (hall : ∀ x ∈ l, x = f) :
    (2 ≤ l.length →
      (detect_frame_duplication (19/20) l).duplicate_count = l.length - 1 ∧
      (detect_frame_duplication (19/20) l).is_duplicated = true) ∧
    (l.length ≤ 1 →
      detect_frame_duplication (19/20) l =
        { is_duplicated := false, confidence := 0, duplicate_count := 0,
          anomalies := [] }) := by
  have hrep : l = List.replicate l.length f := List.eq_replicate_of_mem hall
  constructor
  · intro h2
    have hs : calculate_frame_similarity_gt f f (19/20) = true :=
      calculate_frame_similarity_gt_self f _ (by norm_num) (by norm_num)
    have hcount : (dupScan (19/20) 0 l).1 = l.length - 1 := by
      conv_lhs => rw [hrep]
      exact dupScan_fst_replicate _ f hs l.length 0
    have hnot : ¬(l.length < 2) := by omega
    simp only [detect_frame_duplication, if_neg hnot]
    refine ⟨hcount, ?_⟩
    rw [hcount]
    apply decide_eq_true
    have hcast : ((l.length - 1 : ℕ) : ℚ) = (l.length : ℚ) - 1 := by
      have : 1 ≤ l.length := by omega
      push_cast [this]
      ring
    rw [hcast]
    have hn : (2 : ℚ) ≤ (l.length : ℚ) := by exact_mod_cast h2
    linarith
  · intro h1
    have h : l.length < 2 := by omega
    simp only [detect_frame_duplication, if_pos h]

/-- C6 witness: three identical one-pixel frames, and a single frame. -/
theorem detect_frame_duplication_identical_witness :
    (detect_frame_duplication (19/20) [[0], [0], [0]]).duplicate_count = 2 ∧
      (detect_frame_duplication (19/20) [[0], [0], [0]]).is_duplicated = true ∧
      detect_frame_duplication (19/20) [[5]] =
        { is_duplicated := false, confidence := 0, duplicate_count := 0,
          anomalies := [] } := by
  have h3 := detect_frame_duplication_identical ([[0], [0], [0]] : List Frame)
    [0] (by simp)
  have h1 := detect_frame_duplication_identical ([[5]] : List Frame) [5] (by simp)
  refine ⟨?_, (h3.1 (by simp)).2, h1.2 (by simp)⟩
  rw [(h3.1 (by simp)).1]
  rfl

/-- C7: for every frame sequence whose per-pair motion magnitudes are all
equal, the motion anomaly detector reports zero anomalies,
`is_unnatural = false` and confidence 0; and in general its confidence is
`min(anomaly_count / pair_count, 1.0)`, or 0 when there are no pairs. -/
theorem detect_unnatural_movement_spec (flowMean : Frame → Frame → ℚ)
    (frames : List Frame) (c : ℚ) :
    ((∀ m ∈ movement_changes flowMean frames, m = c) →
      (detect_unnatural_movement flowMean frames).anomalies = [] ∧
      (detect_unnatural_movement flowMean frames).is_unnatural = false ∧
      (detect_unnatural_movement flowMean frames).confidence = 0) ∧
    (detect_unnatural_movement flowMean frames).confidence =
      (if frames.length - 1 = 0 then 0
       else
         min (((detect_unnatural_movement flowMean frames).anomalies.length : ℚ) /
           ((frames.length - 1 : ℕ) : ℚ)) 1) := by
  have hlen := movement_changes_length flowMean frames
  constructor
  · intro hc
    have hanoms : motion_outliers (movement_changes flowMean frames) = [] :=
      motion_outliers_const _ c hc
    refine ⟨hanoms, ?_, ?_⟩
    · simp [detect_unnatural_movement, hanoms]
    · simp only [detect_unnatural_movement, hanoms]
      by_cases hmc : (movement_changes flowMean frames).isEmpty
      · simp [hmc]
      · simp [hmc]
  · simp only [detect_unnatural_movement]
    by_cases hmc : movement_changes flowMean frames = []
    · rw [hmc] at hlen
      simp [hmc, ← hlen]
    · have hne : ¬(movement_changes flowMean frames).isEmpty := by
        simpa [List.isEmpty_iff] using hmc
      have hlz : ¬(frames.length - 1 = 0) := by
        rw [← hlen]
        simpa [List.length_eq_zero] using hmc
      simp only [hne, hlz, if_neg, Bool.false_eq_true, ite_false, if_false, hlen]

/-- C7 witness: a constant flow oracle on three frames. -/
theorem detect_unnatural_movement_spec_witness :
    (detect_unnatural_movement (fun _ _ => 1) [[0], [0], [0]]).anomalies = [] ∧
      (detect_unnatural_movement (fun _ _ => 1) [[0], [0], [0]]).is_unnatural
        = false ∧
      (detect_unnatural_movement (fun _ _ => 1) [[0], [0], [0]]).confidence = 0 :=
  (detect_unnatural_movement_spec (fun _ _ => 1) ([[0], [0], [0]] : List Frame)
    1).1 (by simp [movement_changes])

end Utkrsh
